import Mathlib

/-!
Verification development for a Whitted-style ray tracer
(`src/Assignment5/renderer.py`): per-pixel task/result stacks, the task
dispatch loop, Fresnel reflectance, and the Blinn-Phong shading evaluator.
Floating-point scalars are modelled as exact rationals; `ti.sqrt`, the
norm used by `normalized()`/`tm.distance`, and the per-lane random unit
vectors are modelled as explicit function parameters, so every definition
is computable and claims quantify over them.
-/

/-- Colors and 3-vectors (`ti.types.vector(3, ti.f32)`, `tm.vec3`) as
rational triples; `Prod` supplies componentwise `+`, `-`, `*`, and scalar `•`. -/
abbrev Vec3 : Type := ℚ × ℚ × ℚ

/-- Dot product of two 3-vectors (`tm.dot`, `v.dot(w)`). -/
def dot3 (v w : Vec3) : ℚ :=
  v.1 * w.1 + v.2.1 * w.2.1 + v.2.2 * w.2.2

/-- Broadcast of a scalar to a 3-vector (taichi scalar-to-vector promotion,
as in `diffuse_color += max(0, ...)`). -/
def splat3 (s : ℚ) : Vec3 := (s, s, s)

/-- `v.normalized()`: `v` scaled by the reciprocal norm, the square root
being supplied by the explicit `sqrtf` parameter. -/
def normalized (sqrtf : ℚ → ℚ) (v : Vec3) : Vec3 :=
  (1 / sqrtf (dot3 v v)) • v

/-- `tm.distance(a, b)`: norm of `a - b` under the supplied square root. -/
def distQ (sqrtf : ℚ → ℚ) (a b : Vec3) : ℚ :=
  sqrtf (dot3 (a - b) (a - b))

/-- Modelled from the spec: `Ray` (origin, direction) from the external
`models` module (§3: "Ray: origin (3-vector), direction (3-vector)"). -/
structure Ray where
  ro : Vec3
  rd : Vec3
deriving DecidableEq

/-- The all-zero ray (taichi dataclass zero initialisation of a `Ray` field). -/
def zeroRay : Ray := ⟨(0, 0, 0), (0, 0, 0)⟩

/-- Modelled from the spec: the material variant discriminants of the external
`models` module (§3: "{DIFFUSE (Phong-shaded), REFLECTIVE,
REFLECTIVE_AND_REFRACTIVE}"); only their distinctness matters. -/
def DIFFUSE_AND_GLOSSY : ℤ := 0

/-- Modelled from the spec: discriminant of the reflective-and-refractive
material variant (external `models` module). -/
def REFLECTION_AND_REFRACTION : ℤ := 1

/-- Modelled from the spec: discriminant of the reflective-only material
variant (external `models` module). -/
def REFLECTION : ℤ := 2

/-- Modelled from the spec: `Material` from the external `models` module
(§3: diffuse color, coefficients ka/kd/ks, specular exponent, index of
refraction, behavior discriminant). The specular exponent is modelled as a
natural number. -/
structure Material where
  m_type : ℤ
  diffuse_color : Vec3
  ka : ℚ
  kd : ℚ
  ks : ℚ
  spec_exp : ℕ
  ior : ℚ
deriving DecidableEq

/-- Modelled from the spec: `HitRecord` from the external `models` module
(§3: hit flag, distance along ray, world position, surface normal,
front-face flag, material reference). -/
structure HitRecord where
  is_hit : Bool
  t : ℚ
  pos : Vec3
  N : Vec3
  front_face : Bool
  mat : Material
deriving DecidableEq

/-- A "no hit" record (hit flag false), as returned by a missed scene query. -/
def noHit : HitRecord :=
  ⟨false, 0, (0, 0, 0), (0, 0, 0), false, ⟨0, (0, 0, 0), 0, 0, 0, 0, 0⟩⟩

/-- `PointLight` dataclass: position and intensity. -/
structure PointLight where
  pos : Vec3
  I : Vec3
deriving DecidableEq

/-- Task type tag `TASK_PROCESS = 0` (process a material). -/
def TASK_PROCESS : ℤ := 0

/-- Task type tag `TASK_MERGE = 1` (merge results from reflect/refract). -/
def TASK_MERGE : ℤ := 1

/-- `StatusFrame` dataclass: task type, depth, ray, and Fresnel coefficient. -/
structure StatusFrame where
  task_type : ℤ
  depth : ℤ
  ray : Ray
  kr : ℚ
deriving DecidableEq

/-- The zero status frame (taichi dataclass zero initialisation). -/
def zeroFrame : StatusFrame := ⟨0, 0, zeroRay, 0⟩

/-- One per-pixel bounded stack (`StatusStack` / `ResultStack` are textually
identical up to element type): a capacity (`max_depth` in the source, the
allocated extent of the backing field), a backing store indexed by `ℤ`, and
the top pointer initialised to `-1`. -/
structure Stack (α : Type) where
  cap : ℕ
  store : ℤ → α
  ptr : ℤ

/-- `clear(i, j)`: reset the top pointer to `-1`. -/
def Stack.clear {α} (s : Stack α) : Stack α := { s with ptr := -1 }

/-- `empty(i, j)`: whether `ptr <= -1`. -/
def Stack.empty {α} (s : Stack α) : Bool := decide (s.ptr ≤ -1)

/-- `full(i, j)`: whether `ptr >= max_depth`. -/
def Stack.full {α} (s : Stack α) : Bool := decide ((s.cap : ℤ) ≤ s.ptr)

/-- `top(i, j)`: the stored value at the top pointer. -/
def Stack.top {α} (s : Stack α) : α := s.store s.ptr

/-- `push(i, j, value)`: if `ptr + 1 < max_depth`, advance the pointer and
store the value, returning success; otherwise fail leaving state unchanged. -/
def Stack.push {α} (s : Stack α) (v : α) : Stack α × Bool :=
  if s.ptr + 1 < (s.cap : ℤ) then
    ({ s with ptr := s.ptr + 1,
              store := fun k => if k = s.ptr + 1 then v else s.store k }, true)
  else (s, false)

/-- `pop(i, j)`: if `ptr - 1 >= -1`, retreat the pointer returning success;
otherwise fail leaving state unchanged. -/
def Stack.pop {α} (s : Stack α) : Stack α × Bool :=
  if -1 ≤ s.ptr - 1 then ({ s with ptr := s.ptr - 1 }, true) else (s, false)

/-- Push a whole list of values in order; the flag is true iff every
individual push succeeded. -/
def pushAll {α} (s : Stack α) : List α → Stack α × Bool
  | [] => (s, true)
  | v :: vs =>
    let p := s.push v
    let q := pushAll p.1 vs
    (q.1, p.2 && q.2)

/-- Stack states reachable from an empty stack (pointer `-1`, as after
construction or `clear`) by `clear` / `push` / `pop`. -/
inductive Reachable {α : Type} : Stack α → Prop
  | base (cap : ℕ) (store : ℤ → α) : Reachable ⟨cap, store, -1⟩
  | clear (s : Stack α) : Reachable s → Reachable s.clear
  | push (s : Stack α) (v : α) : Reachable s → Reachable (s.push v).1
  | pop (s : Stack α) : Reachable s → Reachable (s.pop).1

/-- `Renderer.reflect(v, n)`: mirror reflection `v - 2*v.dot(n)*n`. -/
def reflect (v n : Vec3) : Vec3 := v - (2 * dot3 v n) • n

/-- `Renderer.refract(v, n, etai_over_etat)`: Snell refraction in vector
form, with `ti.sqrt` supplied by `sqrtf`. -/
def refract (sqrtf : ℚ → ℚ) (v n : Vec3) (etai_over_etat : ℚ) : Vec3 :=
  let cos_theta := min (dot3 n (-v)) 1
  let r_out_perp := etai_over_etat • (v + cos_theta • n)
  let r_out_parallel := (-(sqrtf |1 - dot3 r_out_perp r_out_perp|)) • n
  r_out_perp + r_out_parallel

/-- `Renderer.reflectance(cosine, ref_idx)`: Schlick's approximation
`r0 + (1 - r0) * (1 - cosine)^5` with `r0 = ((1 - ref_idx)/(1 + ref_idx))^2`. -/
def reflectance (cosine ref_idx : ℚ) : ℚ :=
  let r0 := (1 - ref_idx) / (1 + ref_idx)
  let r0 := r0 * r0
  r0 + (1 - r0) * (1 - cosine) ^ (5 : ℕ)

/-- The fixed epsilon `1e-5` used by `bling_phong` and `ray_color`. -/
def eps0 : ℚ := 1 / 100000

/-- Shadow-ray origin in `bling_phong`: the hit point offset along the
normal, the side chosen by the sign of `dot(ray.rd, rec.N)`. -/
def shadowOrig (ray : Ray) (rec : HitRecord) : Vec3 :=
  if dot3 ray.rd rec.N < 0 then rec.pos + eps0 • rec.N else rec.pos - eps0 • rec.N

/-- Direction from the hit point to a light, `(light.pos - rec.pos).normalized()`. -/
def lightDir (sqrtf : ℚ → ℚ) (rec : HitRecord) (light : PointLight) : Vec3 :=
  normalized sqrtf (light.pos - rec.pos)

/-- The per-light shadow test of `bling_phong`: the shadow ray from `orig`
toward the light hits something (`is_hit`) closer than the light
(`shadow_rec.t < r`). The scene query is the `world` parameter. -/
def inShadow (world : Ray → HitRecord) (sqrtf : ℚ → ℚ) (rec : HitRecord)
    (orig : Vec3) (light : PointLight) : Bool :=
  let r := distQ sqrtf light.pos rec.pos
  let shadow_rec := world ⟨orig, lightDir sqrtf rec light⟩
  shadow_rec.is_hit && decide (shadow_rec.t < r)

/-- The value added to the diffuse accumulator for one light: zero when the
light is occluded, else the broadcast of `max(0, dot(light_dir, rec.N))`. -/
def diffuseTerm (world : Ray → HitRecord) (sqrtf : ℚ → ℚ) (rec : HitRecord)
    (orig : Vec3) (light : PointLight) : Vec3 :=
  if inShadow world sqrtf rec orig light then (0 : Vec3)
  else splat3 (max 0 (dot3 (lightDir sqrtf rec light) rec.N))

/-- The value added to the specular accumulator for one light:
`light.I * max(0, -dot(reflect_dir, light_dir)) ^ spec_exp`, with
`reflect_dir = reflect(-light_dir, rec.N).normalized()`. It is not gated by
the shadow test. -/
def specularTerm (sqrtf : ℚ → ℚ) (rec : HitRecord) (light : PointLight) : Vec3 :=
  let ld := lightDir sqrtf rec light
  let reflect_dir := normalized sqrtf (reflect (-ld) rec.N)
  (max 0 (-(dot3 reflect_dir ld))) ^ rec.mat.spec_exp • light.I

/-- One iteration of the per-light loop of `bling_phong` on the
(ambient, diffuse, specular) accumulator triple: the ambient component is
overwritten with `rec.mat.ka * Ia`, the other two are accumulated. -/
def bpBody (world : Ray → HitRecord) (sqrtf : ℚ → ℚ) (Ia : Vec3)
    (rec : HitRecord) (orig : Vec3) (acc : Vec3 × Vec3 × Vec3)
    (light : PointLight) : Vec3 × Vec3 × Vec3 :=
  (rec.mat.ka • Ia,
   acc.2.1 + diffuseTerm world sqrtf rec orig light,
   acc.2.2 + specularTerm sqrtf rec light)

/-- `Renderer.bling_phong(ray, rec)`: fold the per-light loop over the point
lights starting from zero accumulators, then combine
`ambient + kd * diffuse_color * diffuse + ks * specular`. -/
def bling_phong (world : Ray → HitRecord) (sqrtf : ℚ → ℚ) (Ia : Vec3)
    (point_lights : List PointLight) (ray : Ray) (rec : HitRecord) : Vec3 :=
  let orig := shadowOrig ray rec
  let acc := point_lights.foldl (bpBody world sqrtf Ia rec orig) (0, 0, 0)
  acc.1 + rec.mat.kd • (rec.mat.diffuse_color * acc.2.1) + rec.mat.ks • acc.2.2

/-- Sum of the per-light diffuse accumulator contributions over a light list. -/
def diffSum (world : Ray → HitRecord) (sqrtf : ℚ → ℚ) (rec : HitRecord)
    (orig : Vec3) : List PointLight → Vec3
  | [] => 0
  | l :: ls => diffuseTerm world sqrtf rec orig l + diffSum world sqrtf rec orig ls

/-- Sum of the per-light specular accumulator contributions over a light list. -/
def specSum (sqrtf : ℚ → ℚ) (rec : HitRecord) : List PointLight → Vec3
  | [] => 0
  | l :: ls => specularTerm sqrtf rec l + specSum sqrtf rec ls

/-- The renderer configuration consumed by `ray_color`: background color,
`max_depth`, per-pixel stack capacity `max_stack_size`, `reflect_fuzz`, and
the light list (ambient intensity and point lights). -/
structure Config where
  background_color : Vec3
  max_depth : ℤ
  max_stack_size : ℕ
  reflect_fuzz : ℚ
  ambient_Ia : Vec3
  point_lights : List PointLight

/-- Effective relative index of refraction at a hit: the material's `ior`,
inverted when the ray hit the front face. -/
def effRefIdx (rec : HitRecord) : ℚ :=
  if rec.front_face then 1 / rec.mat.ior else rec.mat.ior

/-- `cos_theta = max(min(-rd.dot(rec.N), 1.0), -1.0)` for a normalized ray
direction `rd`. -/
def cosTheta (rd n : Vec3) : ℚ := max (min (-(dot3 rd n)) 1) (-1)

/-- The MERGE frame pushed at a reflective hit: task type `TASK_MERGE`,
depth `depth + 1`, default ray, and Schlick coefficient
`kr = reflectance(cos_theta, ref_idx)`. -/
def mergeFrameOf (rd : Vec3) (rec : HitRecord) (depth : ℤ) :
    StatusFrame :=
  ⟨TASK_MERGE, depth + 1, zeroRay, reflectance (cosTheta rd rec.N) (effRefIdx rec)⟩

/-- The fuzzed reflection direction: `reflect(rd, rec.N).normalized()` plus
`reflect_fuzz` times the sampled unit vector `rv`. -/
def reflectDirOf (cfg : Config) (sqrtf : ℚ → ℚ) (rv rd n : Vec3) : Vec3 :=
  normalized sqrtf (reflect rd n) + cfg.reflect_fuzz • rv

/-- Reflection-ray origin: the hit point offset by `eps * N`; the source
tests `reflect_dir.dot(N) > 0` but adds `+ N * eps` in both branches. -/
def reflectOrigOf (pos n rdir : Vec3) : Vec3 :=
  if 0 < dot3 rdir n then pos + eps0 • n else pos + eps0 • n

/-- The reflection PROCESS frame pushed at a reflective hit. -/
def reflectFrameOf (cfg : Config) (sqrtf : ℚ → ℚ) (rv rd : Vec3)
    (rec : HitRecord) (depth : ℤ) : StatusFrame :=
  let d := reflectDirOf cfg sqrtf rv rd rec.N
  ⟨TASK_PROCESS, depth + 1, ⟨reflectOrigOf rec.pos rec.N d, d⟩, 0⟩

/-- Refraction-ray origin: offset along `+N` if the refracted direction
points into the outward hemisphere, else along `-N`. -/
def refractOrigOf (pos n fdir : Vec3) : Vec3 :=
  if 0 < dot3 fdir n then pos + eps0 • n else pos - eps0 • n

/-- The refraction PROCESS frame pushed at a reflective-and-refractive hit,
with direction `refract(rd, rec.N, ref_idx).normalized()`. -/
def refractFrameOf (sqrtf : ℚ → ℚ) (rd : Vec3) (rec : HitRecord) (depth : ℤ) :
    StatusFrame :=
  let d := normalized sqrtf (refract sqrtf rd rec.N (effRefIdx rec))
  ⟨TASK_PROCESS, depth + 1, ⟨refractOrigOf rec.pos rec.N d, d⟩, 0⟩

/-- The per-pixel engine state: the status (task) stack, the result stack,
and a counter indexing the stream of sampled random unit vectors. -/
structure RTState where
  tasks : Stack StatusFrame
  results : Stack Vec3
  rng : ℕ

/-- One iteration of the task dispatch loop of `Renderer.ray_color`: pop the
top frame and dispatch on its task type; the returned flag is false exactly
on the `break` taken when a PROCESS ray misses the scene. `world` is the
external `HittableList.hit` query, `randU` the stream of sampled random
unit vectors, `sqrtf` the square-root primitive. -/
def loopBody (cfg : Config) (world : Ray → HitRecord) (randU : ℕ → Vec3)
    (sqrtf : ℚ → ℚ) (s : RTState) : RTState × Bool :=
  let frame := s.tasks.top
  let tasks0 := (s.tasks.pop).1
  if frame.task_type = TASK_PROCESS then
    if frame.depth ≥ cfg.max_depth then
      (⟨tasks0, (s.results.push ((0 : ℚ), (0 : ℚ), (0 : ℚ))).1, s.rng⟩, true)
    else
      let hrec := world frame.ray
      let rd := normalized sqrtf frame.ray.rd
      let depth := frame.depth
      if hrec.is_hit then
        if hrec.mat.m_type = REFLECTION_AND_REFRACTION ∨ hrec.mat.m_type = REFLECTION then
          let tasks1 := (tasks0.push (mergeFrameOf rd hrec depth)).1
          let tasks2 := (tasks1.push (reflectFrameOf cfg sqrtf (randU s.rng) rd hrec depth)).1
          if hrec.mat.m_type = REFLECTION_AND_REFRACTION then
            (⟨(tasks2.push (refractFrameOf sqrtf rd hrec depth)).1, s.results, s.rng + 1⟩, true)
          else
            (⟨tasks2, (s.results.push ((99 / 100 : ℚ) • cfg.background_color)).1, s.rng + 1⟩, true)
        else
          (⟨tasks0,
            (s.results.push (bling_phong world sqrtf cfg.ambient_Ia cfg.point_lights frame.ray hrec)).1,
            s.rng⟩, true)
      else
        (⟨tasks0, s.results, s.rng⟩, false)
  else
    if frame.task_type = TASK_MERGE then
      let kr := frame.kr
      let refract_color := s.results.top
      let results1 := (s.results.pop).1
      let reflect_color := results1.top
      let results2 := (results1.pop).1
      (⟨tasks0, (results2.push (kr • reflect_color + (1 - kr) • refract_color)).1, s.rng⟩, true)
    else
      (⟨tasks0, s.results, s.rng⟩, true)

/-- The `while not empty` dispatch loop, driven by an explicit fuel bound:
`none` when the fuel runs out before the loop finishes, otherwise the state
at loop exit (normal drain or `break`). -/
def runLoop (cfg : Config) (world : Ray → HitRecord) (randU : ℕ → Vec3)
    (sqrtf : ℚ → ℚ) : ℕ → RTState → Option RTState
  | 0, _ => none
  | fuel + 1, s =>
    if s.tasks.empty then some s
    else
      let r := loopBody cfg world randU sqrtf s
      if r.2 then runLoop cfg world randU sqrtf fuel r.1 else some r.1

/-- The state at the start of a pixel trace: both stacks cleared (with
zero-initialised backing stores) and the primary PROCESS frame
`StatusFrame(TASK_PROCESS, 0, ray, 1.0)` pushed onto the task stack. -/
def initState (cfg : Config) (ray : Ray) : RTState :=
  ⟨((⟨cfg.max_stack_size, fun _ => zeroFrame, -1⟩ : Stack StatusFrame).push
      ⟨TASK_PROCESS, 0, ray, 1⟩).1,
   ⟨cfg.max_stack_size, fun _ => ((0 : ℚ), (0 : ℚ), (0 : ℚ)), -1⟩, 0⟩

/-- The pixel color extracted after the loop: the top result if the result
stack is nonempty, otherwise the configured background color. -/
def finalColor (cfg : Config) (s : RTState) : Vec3 :=
  if s.results.empty then cfg.background_color else s.results.top

/-- `Renderer.ray_color(i, j, ray)`: run the dispatch loop from the initial
state and extract the pixel color; the final state is returned alongside.
`none` when the fuel bound was insufficient. -/
def ray_color (cfg : Config) (world : Ray → HitRecord) (randU : ℕ → Vec3)
    (sqrtf : ℚ → ℚ) (fuel : ℕ) (ray : Ray) : Option (Vec3 × RTState) :=
  (runLoop cfg world randU sqrtf fuel (initState cfg ray)).map
    (fun s => (finalColor cfg s, s))

/-- A push succeeds exactly when a slot remains below capacity. -/
theorem push_succ_iff {α : Type} (s : Stack α) (v : α) :
    (s.push v).2 = true ↔ s.ptr + 1 < (s.cap : ℤ) := by
  unfold Stack.push
  split <;> simp_all

/-- A successful push advances the pointer, keeps the capacity, and leaves
the pushed value on top. -/
theorem push_ptr {α : Type} (s : Stack α) (v : α) (h : s.ptr + 1 < (s.cap : ℤ)) :
    (s.push v).1.ptr = s.ptr + 1 ∧ (s.push v).1.cap = s.cap ∧ (s.push v).1.top = v := by
  unfold Stack.push Stack.top
  rw [if_pos h]
  exact ⟨rfl, rfl, by simp⟩

/-- A successful sequence of pushes advances the pointer by the number of
pushed values and leaves the capacity unchanged. -/
theorem pushAll_true_ptr {α : Type} (vs : List α) : ∀ (s : Stack α),
    (pushAll s vs).2 = true →
    (pushAll s vs).1.ptr = s.ptr + vs.length ∧ (pushAll s vs).1.cap = s.cap := by
  induction vs with
  | nil => intro s _; simp [pushAll]
  | cons v vs ih =>
    intro s h
    simp only [pushAll, Bool.and_eq_true] at h ⊢
    obtain ⟨h1, h2⟩ := h
    have hp : (s.push v).1.ptr = s.ptr + 1 ∧ (s.push v).1.cap = s.cap := by
      have hc := (push_succ_iff s v).mp h1
      exact ⟨(push_ptr s v hc).1, (push_ptr s v hc).2.1⟩
    obtain ⟨hi1, hi2⟩ := ih (s.push v).1 h2
    refine ⟨?_, by rw [hi2, hp.2]⟩
    rw [hi1, hp.1]
    simp only [List.length_cons]
    push_cast
    ring

/-- C5: stack contract of `StatusStack`/`ResultStack` (any element type):
a push attempted after `cap`-many successful pushes without intervening pops
fails and leaves the stack (pointer and stored values) unchanged; a pop on
an empty stack fails and leaves the state unchanged; after `clear`, `empty`
is true. -/
theorem stack_contract {α : Type} (s t u : Stack α) (v : α) (vs : List α) :
    (-1 ≤ s.ptr → (vs.length : ℤ) = (s.cap : ℤ) → (pushAll s vs).2 = true →
      (pushAll s vs).1.push v = ((pushAll s vs).1, false)) ∧
    (t.empty = true → t.pop = (t, false)) ∧
    (u.clear).empty = true := by
  refine ⟨?_, ?_, ?_⟩
  · intro h0 hlen hall
    obtain ⟨hp, hc⟩ := pushAll_true_ptr vs s hall
    unfold Stack.push
    rw [if_neg]
    rw [hp, hc]
    omega
  · intro ht
    have h : t.ptr ≤ -1 := by
      have := of_decide_eq_true ht
      exact this
    unfold Stack.pop
    rw [if_neg]
    omega
  · simp [Stack.clear, Stack.empty]

/-- Witness stack for the C5 contract: capacity 2, empty. -/
def stkW : Stack ℚ := ⟨2, fun _ => 0, -1⟩

/-- C5 witness: the contract instantiated at a concrete capacity-2 stack
with two successful pushes. -/
theorem stack_contract_witness :
    ((pushAll stkW [1, 2]).1.push 7 = ((pushAll stkW [1, 2]).1, false)) ∧
    stkW.pop = (stkW, false) ∧
    (stkW.clear).empty = true := by
  refine ⟨(stack_contract stkW stkW stkW 7 [1, 2]).1 (by norm_num [stkW]) (by norm_num [stkW]) ?_,
          (stack_contract stkW stkW stkW 7 [1, 2]).2.1 ?_,
          (stack_contract stkW stkW stkW 7 [1, 2]).2.2⟩
  · rfl
  · rfl

/-- C10: in every stack state reachable from an empty stack by
clear/push/pop, the top pointer stays at most `capacity - 1`, and therefore
`full()` (which tests `ptr >= capacity`) returns false — including in the
state holding `capacity` entries where a push already fails. -/
theorem reachable_never_full {α : Type} (s : Stack α) (h : Reachable s) :
    s.ptr ≤ (s.cap : ℤ) - 1 ∧ s.full = false := by
  have key : s.ptr < (s.cap : ℤ) := by
    induction h with
    | base cap store => dsimp only; omega
    | clear s' _ ih =>
      simp only [Stack.clear] at *
      omega
    | push s' v _ ih =>
      unfold Stack.push
      split
      · simpa
      · simpa using ih
    | pop s' _ ih =>
      unfold Stack.pop
      split
      · simp only
        omega
      · simpa using ih
  refine ⟨by omega, ?_⟩
  simp only [Stack.full, decide_eq_false_iff_not, not_le]
  exact key

/-- C10 witness: a concrete reachable state (one push onto an empty
capacity-2 stack) where the pointer is below capacity and `full` is false. -/
theorem reachable_never_full_witness :
    (((⟨2, fun _ => (0 : ℚ), -1⟩ : Stack ℚ).push 5).1.ptr ≤
        ((((⟨2, fun _ => (0 : ℚ), -1⟩ : Stack ℚ).push 5).1.cap : ℤ) - 1)) ∧
    (((⟨2, fun _ => (0 : ℚ), -1⟩ : Stack ℚ).push 5).1.full = false) :=
  reachable_never_full _ (Reachable.push _ 5 (Reachable.base 2 (fun _ => 0)))

/-- C2 (counterexample): at `cosine = -1` (inside the claimed domain
`[-1, 1]`) and `ior = 1 > 0`, `reflectance` evaluates to 32, far outside
`[0, 1]`. -/
theorem reflectance_bounds_counterexample :
    ((-1 : ℚ) ≤ -1 ∧ (-1 : ℚ) ≤ 1 ∧ (0 : ℚ) < 1) ∧
    reflectance (-1) 1 = 32 ∧ ¬ reflectance (-1) 1 ≤ 1 := by
  norm_num [reflectance]

/-- C2 (amended): `reflectance(cosine, ior)` lies in `[0, 1]` for every
`cosine` in `[0, 1]` (not `[-1, 1]`) and `ior > 0`, and at `cosine = 1` it
equals `r0 = ((1 - ior)/(1 + ior))^2` exactly. -/
theorem reflectance_bounds (cosine ior : ℚ) (h0 : 0 ≤ cosine) (h1 : cosine ≤ 1)
    (h2 : 0 < ior) :
    (0 ≤ reflectance cosine ior ∧ reflectance cosine ior ≤ 1) ∧
    reflectance 1 ior = ((1 - ior) / (1 + ior)) ^ 2 := by
  have hd : (0 : ℚ) < 1 + ior := by linarith
  set a := (1 - ior) / (1 + ior) with ha
  have hr0 : 0 ≤ a * a := mul_self_nonneg a
  have hr1 : a * a ≤ 1 := by
    have hsq : a * a = ((1 - ior) * (1 - ior)) / ((1 + ior) * (1 + ior)) := by
      rw [ha, div_mul_div_comm]
    rw [hsq, div_le_one (mul_pos hd hd)]
    nlinarith
  have ht0 : (0 : ℚ) ≤ (1 - cosine) ^ (5 : ℕ) := pow_nonneg (by linarith) 5
  have ht1 : (1 - cosine) ^ (5 : ℕ) ≤ 1 :=
    pow_le_one₀ (by linarith) (by linarith)
  refine ⟨⟨?_, ?_⟩, ?_⟩
  · simp only [reflectance, ← ha]
    nlinarith
  · simp only [reflectance, ← ha]
    nlinarith
  · simp only [reflectance, ← ha]
    norm_num
    ring

/-- C2 witness: the amended bounds evaluated at `cosine = 1/2`, `ior = 2`. -/
theorem reflectance_bounds_witness :
    ((0 : ℚ) ≤ reflectance (1/2) 2 ∧ reflectance (1/2) 2 ≤ 1) ∧
    reflectance 1 2 = ((1 - 2) / (1 + 2) : ℚ) ^ 2 :=
  reflectance_bounds (1/2) 2 (by norm_num) (by norm_num) (by norm_num)

/-- The per-light fold of `bling_phong`: the ambient slot ends at
`ka * Ia` whenever at least one light was processed (it is overwritten each
iteration), while the diffuse and specular slots accumulate the per-light
sums on top of their initial values. -/
theorem bp_foldl_eq (world : Ray → HitRecord) (sqrtf : ℚ → ℚ) (Ia : Vec3)
    (rec : HitRecord) (orig : Vec3) (lights : List PointLight) :
    ∀ a d sp : Vec3,
      List.foldl (bpBody world sqrtf Ia rec orig) (a, d, sp) lights =
        ((if lights.isEmpty then a else rec.mat.ka • Ia),
         d + diffSum world sqrtf rec orig lights,
         sp + specSum sqrtf rec lights) := by
  induction lights with
  | nil => intro a d sp; simp [diffSum, specSum]
  | cons l ls ih =>
    intro a d sp
    simp only [List.foldl_cons, bpBody, ih, diffSum, specSum, List.isEmpty_cons,
      add_assoc, List.isEmpty_iff]
    simp

/-- `bling_phong` on a nonempty light list decomposes as a single ambient
term `ka * Ia` plus the diffuse and specular sums over the lights. -/
theorem bling_phong_decomp (world : Ray → HitRecord) (sqrtf : ℚ → ℚ)
    (Ia : Vec3) (lights : List PointLight) (ray : Ray) (rec : HitRecord)
    (h : lights ≠ []) :
    bling_phong world sqrtf Ia lights ray rec =
      rec.mat.ka • Ia +
      rec.mat.kd • (rec.mat.diffuse_color *
        diffSum world sqrtf rec (shadowOrig ray rec) lights) +
      rec.mat.ks • specSum sqrtf rec lights := by
  simp only [bling_phong]
  rw [bp_foldl_eq]
  have he : lights.isEmpty = false := by
    cases lights with
    | nil => exact absurd rfl h
    | cons l ls => rfl
  rw [he]
  simp

/-- C9: on any nonempty point-light list the ambient term of the color
returned by `bling_phong` is exactly `ka * ambient_intensity`, appearing
exactly once: it is overwritten (not accumulated) on each light iteration,
so the ambient contribution is independent of the number of lights. -/
theorem ambient_term_once (world : Ray → HitRecord) (sqrtf : ℚ → ℚ)
    (Ia : Vec3) (lights : List PointLight) (ray : Ray) (rec : HitRecord)
    (h : lights ≠ []) :
    bling_phong world sqrtf Ia lights ray rec =
      rec.mat.ka • Ia +
      rec.mat.kd • (rec.mat.diffuse_color *
        diffSum world sqrtf rec (shadowOrig ray rec) lights) +
      rec.mat.ks • specSum sqrtf rec lights :=
  bling_phong_decomp world sqrtf Ia lights ray rec h

/-- Trivial world for witnesses: every ray misses. -/
def world0 : Ray → HitRecord := fun _ => noHit

/-- Trivial random-unit-vector stream for witnesses. -/
def rand0 : ℕ → Vec3 := fun _ => ((0 : ℚ), (0 : ℚ), (0 : ℚ))

/-- Identity square-root stand-in for witnesses (only its values at the
concrete arguments that actually occur matter). -/
def sqrt0 : ℚ → ℚ := fun q => q

/-- Witness material: an ambient-only diffuse material. -/
def matW : Material := ⟨DIFFUSE_AND_GLOSSY, (1, 1, 1), 1, 1, 1, 1, 1⟩

/-- Witness hit record at the origin with normal `+z`. -/
def recW : HitRecord := ⟨true, 1, (0, 0, 0), (0, 0, 1), true, matW⟩

/-- Witness light on the `+z` axis. -/
def lightW : PointLight := ⟨(0, 0, 1), (1, 1, 1)⟩

/-- Witness primary ray pointing down `-z`. -/
def rayW : Ray := ⟨(0, 0, 5), (0, 0, -1)⟩

/-- C9 witness: the ambient decomposition instantiated at a concrete
one-light scene. -/
theorem ambient_term_once_witness :
    bling_phong world0 sqrt0 (2, 2, 2) [lightW] rayW recW =
      recW.mat.ka • ((2 : ℚ), (2 : ℚ), (2 : ℚ)) +
      recW.mat.kd • (recW.mat.diffuse_color *
        diffSum world0 sqrt0 recW (shadowOrig rayW recW) [lightW]) +
      recW.mat.ks • specSum sqrt0 recW [lightW] :=
  ambient_term_once world0 sqrt0 (2, 2, 2) [lightW] rayW recW (by simp)

/-- The diffuse sum splits over list append. -/
theorem diffSum_append (world : Ray → HitRecord) (sqrtf : ℚ → ℚ)
    (rec : HitRecord) (orig : Vec3) (l1 l2 : List PointLight) :
    diffSum world sqrtf rec orig (l1 ++ l2) =
      diffSum world sqrtf rec orig l1 + diffSum world sqrtf rec orig l2 := by
  induction l1 with
  | nil => simp [diffSum]
  | cons l ls ih => simp [diffSum, ih, add_assoc]

/-- C3 scene: a material with only a specular coefficient. -/
def mat3 : Material := ⟨DIFFUSE_AND_GLOSSY, (1, 1, 1), 0, 0, 1, 1, 1⟩

/-- C3 scene: hit record at the origin with normal `+z`. -/
def rec3 : HitRecord := ⟨true, 1, (0, 0, 0), (0, 0, 1), true, mat3⟩

/-- C3 scene: incoming ray from `+z`. -/
def ray3 : Ray := ⟨(0, 0, 5), (0, 0, -1)⟩

/-- C3 scene: a point light at `(4, 0, 3)`, distance 5 from the hit point. -/
def light3 : PointLight := ⟨(4, 0, 3), (1, 1, 1)⟩

/-- C3 scene: a world in which every ray (in particular the shadow ray)
hits an occluder at distance 1, closer than the light at distance 5. -/
def w3 : Ray → HitRecord := fun _ => ⟨true, 1, (0, 0, 0), (0, 0, 0), false, mat3⟩

/-- C3 scene: square root evaluated at the two squared norms that occur. -/
def sq3 : ℚ → ℚ := fun q => if q = 25 then 5 else 1

/-- C3 (counterexample): in this scene the light is occluded (`inShadow` is
true: the shadow ray hits at distance 1 < 5), yet its specular contribution
is `(7/25, 7/25, 7/25) ≠ 0`, and the returned color differs from the
ambient-only color `ka * Ia` that a zero diffuse and specular contribution
would produce. -/
theorem occluded_light_specular_counterexample :
    inShadow w3 sq3 rec3 (shadowOrig ray3 rec3) light3 = true ∧
    specularTerm sq3 rec3 light3 ≠ 0 ∧
    bling_phong w3 sq3 (1, 1, 1) [light3] ray3 rec3 ≠
      rec3.mat.ka • ((1 : ℚ), (1 : ℚ), (1 : ℚ)) := by
  refine ⟨?_, ?_, ?_⟩
  · norm_num [inShadow, distQ, lightDir, normalized, dot3, shadowOrig, eps0,
      w3, sq3, rec3, ray3, light3, mat3]
  · norm_num [specularTerm, lightDir, normalized, dot3, reflect, sq3, rec3,
      light3, mat3, Prod.ext_iff, Prod.smul_def, smul_eq_mul]
  · norm_num [bling_phong, bpBody, diffuseTerm, specularTerm, inShadow,
      distQ, lightDir, normalized, dot3, reflect, shadowOrig, eps0, splat3,
      w3, sq3, rec3, ray3, light3, mat3, Prod.ext_iff, Prod.smul_def,
      smul_eq_mul]

/-- C3 (amended): a point light whose shadow ray hits an occluder strictly
closer than the light contributes zero to the diffuse accumulation, but its
specular term is accumulated regardless of the shadow test: the returned
color keeps the occluded light's specular summand while its diffuse summand
drops out of the diffuse sum. -/
theorem occluded_light_zero_diffuse (world : Ray → HitRecord) (sqrtf : ℚ → ℚ)
    (Ia : Vec3) (ray : Ray) (rec : HitRecord) (light : PointLight)
    (l1 l2 : List PointLight)
    (h : inShadow world sqrtf rec (shadowOrig ray rec) light = true) :
    diffuseTerm world sqrtf rec (shadowOrig ray rec) light = 0 ∧
    bling_phong world sqrtf Ia (l1 ++ light :: l2) ray rec =
      rec.mat.ka • Ia +
      rec.mat.kd • (rec.mat.diffuse_color *
        diffSum world sqrtf rec (shadowOrig ray rec) (l1 ++ l2)) +
      rec.mat.ks • specSum sqrtf rec (l1 ++ light :: l2) := by
  have hz : diffuseTerm world sqrtf rec (shadowOrig ray rec) light = 0 := by
    unfold diffuseTerm
    rw [h]
    simp
  refine ⟨hz, ?_⟩
  rw [bling_phong_decomp world sqrtf Ia (l1 ++ light :: l2) ray rec (by simp)]
  rw [diffSum_append, diffSum_append]
  simp only [diffSum, hz, zero_add]

/-- C3 witness: the amended statement instantiated at the concrete occluded
scene, with the occluded light as the only light. -/
theorem occluded_light_zero_diffuse_witness :
    diffuseTerm w3 sq3 rec3 (shadowOrig ray3 rec3) light3 = 0 ∧
    bling_phong w3 sq3 (1, 1, 1) ([] ++ light3 :: []) ray3 rec3 =
      rec3.mat.ka • ((1 : ℚ), (1 : ℚ), (1 : ℚ)) +
      rec3.mat.kd • (rec3.mat.diffuse_color *
        diffSum w3 sq3 rec3 (shadowOrig ray3 rec3) ([] ++ [])) +
      rec3.mat.ks • specSum sq3 rec3 ([] ++ light3 :: []) :=
  occluded_light_zero_diffuse w3 sq3 (1, 1, 1) ray3 rec3 light3 [] []
    (by norm_num [inShadow, distQ, lightDir, normalized, dot3, shadowOrig,
      eps0, w3, sq3, rec3, ray3, light3, mat3])

/-- Trivial configuration for step-level witnesses. -/
def cfg0 : Config := ⟨(0, 0, 0), 0, 0, 0, (0, 0, 0), []⟩

/-- C1 (amended): when a MERGE frame carrying `kr` executes, the engine
pops two entries from the result stack and pushes `kr` times the
SECOND-popped entry plus `1 - kr` times the FIRST-popped (top) entry — the
source names the first pop `refract_color` and the second `reflect_color`
and computes `kr * reflect_color + (1 - kr) * refract_color`, so `kr`
weights the second pop, which under the engine's push order holds the
refraction result. -/
theorem merge_weights_kr_on_second_pop (cfg : Config) (world : Ray → HitRecord)
    (randU : ℕ → Vec3) (sqrtf : ℚ → ℚ) (s : RTState)
    (h : (s.tasks.top).task_type = TASK_MERGE) :
    loopBody cfg world randU sqrtf s =
      (⟨(s.tasks.pop).1,
        ((((s.results.pop).1.pop).1).push
          ((s.tasks.top).kr • (((s.results.pop).1).top) +
           (1 - (s.tasks.top).kr) • s.results.top)).1,
        s.rng⟩, true) := by
  simp only [loopBody]
  rw [h]
  norm_num [TASK_MERGE, TASK_PROCESS]

/-- C1 counterexample state: a MERGE frame with `kr = 1` on the task stack
and a result stack holding `(0,0,0)` under `(1,1,1)`. -/
def s1 : RTState :=
  ⟨⟨2, fun _ => ⟨TASK_MERGE, 1, zeroRay, 1⟩, 0⟩,
   ⟨3, fun k => if k = 1 then ((1 : ℚ), (1 : ℚ), (1 : ℚ)) else ((0 : ℚ), (0 : ℚ), (0 : ℚ)), 1⟩, 0⟩

/-- C1 (counterexample): at a state whose MERGE frame carries `kr = 1`,
whose first-popped (top) result entry is `(1,1,1)` and whose second-popped
entry is `(0,0,0)`, the engine pushes `(0,0,0)` — not
`kr * firstPop + (1 - kr) * secondPop = (1,1,1)` as the claim states. -/
theorem merge_kr_on_first_pop_counterexample :
    s1.tasks.top.kr = 1 ∧
    s1.results.top = ((1 : ℚ), (1 : ℚ), (1 : ℚ)) ∧
    ((s1.results.pop).1).top = ((0 : ℚ), (0 : ℚ), (0 : ℚ)) ∧
    (loopBody cfg0 world0 rand0 sqrt0 s1).1.results.top ≠
      s1.tasks.top.kr • s1.results.top +
        (1 - s1.tasks.top.kr) • ((s1.results.pop).1).top := by
  refine ⟨rfl, ?_, ?_, ?_⟩
  · norm_num [s1, Stack.top]
  · norm_num [s1, Stack.top, Stack.pop]
  · norm_num [loopBody, s1, cfg0, world0, rand0, sqrt0, Stack.top, Stack.pop,
      Stack.push, TASK_MERGE, TASK_PROCESS, Prod.ext_iff, Prod.smul_def,
      smul_eq_mul]

/-- C1 witness: the amended merge step instantiated at the concrete state
`s1`. -/
theorem merge_weights_kr_on_second_pop_witness :
    loopBody cfg0 world0 rand0 sqrt0 s1 =
      (⟨(s1.tasks.pop).1,
        ((((s1.results.pop).1.pop).1).push
          ((s1.tasks.top).kr • (((s1.results.pop).1).top) +
           (1 - (s1.tasks.top).kr) • s1.results.top)).1,
        s1.rng⟩, true) :=
  merge_weights_kr_on_second_pop cfg0 world0 rand0 sqrt0 s1 rfl

/-- C6: popping a PROCESS frame with `depth >= max_depth` pushes exactly the
color `(0,0,0)` onto the result stack, pops the task frame without pushing
any further task frames, continues the loop (flag true), and performs no
intersection: the step is identical for every world. Hence a PROCESS frame
at `depth == max_depth` contributes exactly black. -/
theorem depth_exhausted_pushes_black (cfg : Config) (world : Ray → HitRecord)
    (randU : ℕ → Vec3) (sqrtf : ℚ → ℚ) (s : RTState)
    (h1 : (s.tasks.top).task_type = TASK_PROCESS)
    (h2 : cfg.max_depth ≤ (s.tasks.top).depth) :
    loopBody cfg world randU sqrtf s =
      (⟨(s.tasks.pop).1,
        (s.results.push ((0 : ℚ), (0 : ℚ), (0 : ℚ))).1, s.rng⟩, true) ∧
    (∀ world' : Ray → HitRecord,
      loopBody cfg world' randU sqrtf s = loopBody cfg world randU sqrtf s) := by
  have key : ∀ w : Ray → HitRecord, loopBody cfg w randU sqrtf s =
      (⟨(s.tasks.pop).1,
        (s.results.push ((0 : ℚ), (0 : ℚ), (0 : ℚ))).1, s.rng⟩, true) := by
    intro w
    simp only [loopBody]
    rw [h1]
    simp [TASK_PROCESS, ge_iff_le, h2]
  exact ⟨key world, fun w' => (key w').trans (key world).symm⟩

/-- C6 witness state: a PROCESS frame at depth 3 on top. -/
def s6 : RTState :=
  ⟨⟨4, fun _ => ⟨TASK_PROCESS, 3, zeroRay, 0⟩, 0⟩,
   ⟨4, fun _ => ((0 : ℚ), (0 : ℚ), (0 : ℚ)), -1⟩, 0⟩

/-- C6 witness configuration: `max_depth = 3`. -/
def cfg6 : Config := ⟨(1, 1, 1), 3, 4, 0, (0, 0, 0), []⟩

/-- C6 witness: the depth-exhausted step at a concrete state whose top
PROCESS frame has depth equal to `max_depth = 3`. -/
theorem depth_exhausted_pushes_black_witness :
    loopBody cfg6 world0 rand0 sqrt0 s6 =
      (⟨(s6.tasks.pop).1,
        (s6.results.push ((0 : ℚ), (0 : ℚ), (0 : ℚ))).1, s6.rng⟩, true) ∧
    (∀ world' : Ray → HitRecord,
      loopBody cfg6 world' rand0 sqrt0 s6 = loopBody cfg6 world0 rand0 sqrt0 s6) :=
  depth_exhausted_pushes_black cfg6 world0 rand0 sqrt0 s6 rfl (by norm_num [s6, cfg6, Stack.top])

/-- Unfolding of one `runLoop` iteration. -/
theorem runLoop_succ (cfg : Config) (world : Ray → HitRecord) (randU : ℕ → Vec3)
    (sqrtf : ℚ → ℚ) (n : ℕ) (s : RTState) :
    runLoop cfg world randU sqrtf (n + 1) s =
      if s.tasks.empty then some s
      else if (loopBody cfg world randU sqrtf s).2 then
        runLoop cfg world randU sqrtf n (loopBody cfg world randU sqrtf s).1
      else some (loopBody cfg world randU sqrtf s).1 := rfl

/-- C7: (i) when the popped PROCESS frame's ray misses the scene (and depth
is not exhausted), the step returns the break flag and the loop terminates
at once with the remaining pending task frames discarded unprocessed; (ii)
a primary ray that hits nothing yields exactly the configured background
color, for every random stream and square-root function (no randomness in
the miss path), whenever `max_depth > 0`. -/
theorem miss_breaks_loop_and_background :
    (∀ (cfg : Config) (world : Ray → HitRecord) (randU : ℕ → Vec3)
        (sqrtf : ℚ → ℚ) (s : RTState),
      (s.tasks.top).task_type = TASK_PROCESS →
      (s.tasks.top).depth < cfg.max_depth →
      (world ((s.tasks.top).ray)).is_hit = false →
      loopBody cfg world randU sqrtf s = (⟨(s.tasks.pop).1, s.results, s.rng⟩, false) ∧
      (s.tasks.empty = false →
        ∀ fuel : ℕ, runLoop cfg world randU sqrtf (fuel + 1) s =
          some ⟨(s.tasks.pop).1, s.results, s.rng⟩)) ∧
    (∀ (cfg : Config) (world : Ray → HitRecord) (randU : ℕ → Vec3)
        (sqrtf : ℚ → ℚ) (fuel : ℕ) (ray : Ray),
      0 < cfg.max_depth →
      (world ray).is_hit = false →
      1 ≤ fuel →
      (ray_color cfg world randU sqrtf fuel ray).map Prod.fst =
        some cfg.background_color) := by
  have step : ∀ (cfg : Config) (world : Ray → HitRecord) (randU : ℕ → Vec3)
      (sqrtf : ℚ → ℚ) (s : RTState),
      (s.tasks.top).task_type = TASK_PROCESS →
      (s.tasks.top).depth < cfg.max_depth →
      (world ((s.tasks.top).ray)).is_hit = false →
      loopBody cfg world randU sqrtf s = (⟨(s.tasks.pop).1, s.results, s.rng⟩, false) := by
    intro cfg world randU sqrtf s h1 h2 h3
    simp only [loopBody]
    rw [h1, h3]
    rw [if_pos rfl]
    rw [if_neg (not_le.mpr h2)]
    simp
  refine ⟨?_, ?_⟩
  · intro cfg world randU sqrtf s h1 h2 h3
    refine ⟨step cfg world randU sqrtf s h1 h2 h3, ?_⟩
    intro hne fuel
    rw [runLoop_succ]
    rw [step cfg world randU sqrtf s h1 h2 h3]
    simp [hne]
  · intro cfg world randU sqrtf fuel ray hmd hmiss hfuel
    obtain ⟨n, rfl⟩ : ∃ n, fuel = n + 1 := ⟨fuel - 1, by omega⟩
    unfold ray_color
    by_cases hcap : (0 : ℤ) < (cfg.max_stack_size : ℤ)
    · have hpush : (initState cfg ray).tasks =
          ⟨cfg.max_stack_size,
           fun k => if k = (0 : ℤ) then ⟨TASK_PROCESS, 0, ray, 1⟩ else zeroFrame,
           0⟩ := by
        simp only [initState, Stack.push]
        rw [if_pos (by omega)]
        norm_num
      have htop : (initState cfg ray).tasks.top = ⟨TASK_PROCESS, 0, ray, 1⟩ := by
        rw [hpush]
        simp [Stack.top]
      have hemp : (initState cfg ray).tasks.empty = false := by
        rw [hpush]
        simp [Stack.empty]
      have hstep := step cfg world randU sqrtf (initState cfg ray)
        (by rw [htop]) (by rw [htop]; exact hmd) (by rw [htop]; exact hmiss)
      simp only [ray_color, runLoop_succ, hemp, hstep, Bool.false_eq_true,
        if_false]
      simp [finalColor, initState, Stack.empty]
    · have hpush : (initState cfg ray).tasks =
          ⟨cfg.max_stack_size, fun _ => zeroFrame, -1⟩ := by
        simp only [initState, Stack.push]
        rw [if_neg (by omega)]
      have hemp : (initState cfg ray).tasks.empty = true := by
        rw [hpush]
        simp [Stack.empty]
      simp only [ray_color, runLoop_succ, hemp, if_true]
      simp [finalColor, initState, Stack.empty]

/-- C7 witness state: a PROCESS frame at depth 0 on top of a nonempty task
stack. -/
def s7 : RTState :=
  ⟨⟨3, fun _ => ⟨TASK_PROCESS, 0, rayW, 1⟩, 0⟩,
   ⟨3, fun _ => ((0 : ℚ), (0 : ℚ), (0 : ℚ)), -1⟩, 0⟩

/-- C7 witness configuration. -/
def cfg7 : Config := ⟨(1, 2, 3), 3, 3, 0, (0, 0, 0), []⟩

/-- C7 witness: the break step at a concrete missing state, and the
background color produced for a concrete primary ray that misses. -/
theorem miss_breaks_loop_and_background_witness :
    (loopBody cfg7 world0 rand0 sqrt0 s7 =
        (⟨(s7.tasks.pop).1, s7.results, s7.rng⟩, false) ∧
      (s7.tasks.empty = false → ∀ fuel : ℕ,
        runLoop cfg7 world0 rand0 sqrt0 (fuel + 1) s7 =
          some ⟨(s7.tasks.pop).1, s7.results, s7.rng⟩)) ∧
    (ray_color cfg7 world0 rand0 sqrt0 2 rayW).map Prod.fst =
      some cfg7.background_color :=
  ⟨miss_breaks_loop_and_background.1 cfg7 world0 rand0 sqrt0 s7 rfl
      (by norm_num [s7, cfg7, Stack.top]) rfl,
   miss_breaks_loop_and_background.2 cfg7 world0 rand0 sqrt0 2 rayW
      (by norm_num [cfg7]) rfl (by norm_num)⟩

/-- A successful pop retreats the pointer and keeps the capacity. -/
theorem pop_ptr {α : Type} (s : Stack α) (h : 0 ≤ s.ptr) :
    (s.pop).1.ptr = s.ptr - 1 ∧ (s.pop).1.cap = s.cap := by
  unfold Stack.pop
  rw [if_pos (by omega)]
  exact ⟨rfl, rfl⟩

/-- C8: at a hit on a REFLECTIVE or REFLECTIVE_AND_REFRACTIVE material with
depth below the bound, the MERGE frame is pushed first, then the reflection
PROCESS frame, then (for REFLECTIVE_AND_REFRACTIVE) the refraction PROCESS
frame — so with capacity remaining the refraction frame ends on top of the
task stack and is processed first; for a REFLECTIVE-only material no
refraction frame is pushed and `0.99 * background_color` is pushed directly
onto the result stack as the refracted placeholder. -/
theorem reflective_push_order (cfg : Config) (world : Ray → HitRecord)
    (randU : ℕ → Vec3) (sqrtf : ℚ → ℚ) (s : RTState)
    (h1 : (s.tasks.top).task_type = TASK_PROCESS)
    (h2 : (s.tasks.top).depth < cfg.max_depth)
    (h3 : (world ((s.tasks.top).ray)).is_hit = true) :
    ((world ((s.tasks.top).ray)).mat.m_type = REFLECTION_AND_REFRACTION →
      loopBody cfg world randU sqrtf s =
        (⟨((((s.tasks.pop).1.push
              (mergeFrameOf (normalized sqrtf ((s.tasks.top).ray).rd)
                (world ((s.tasks.top).ray)) ((s.tasks.top).depth))).1.push
              (reflectFrameOf cfg sqrtf (randU s.rng)
                (normalized sqrtf ((s.tasks.top).ray).rd)
                (world ((s.tasks.top).ray)) ((s.tasks.top).depth))).1.push
              (refractFrameOf sqrtf (normalized sqrtf ((s.tasks.top).ray).rd)
                (world ((s.tasks.top).ray)) ((s.tasks.top).depth))).1,
          s.results, s.rng + 1⟩, true) ∧
      (0 ≤ s.tasks.ptr → s.tasks.ptr + 2 < (s.tasks.cap : ℤ) →
        (loopBody cfg world randU sqrtf s).1.tasks.top =
          refractFrameOf sqrtf (normalized sqrtf ((s.tasks.top).ray).rd)
            (world ((s.tasks.top).ray)) ((s.tasks.top).depth))) ∧
    ((world ((s.tasks.top).ray)).mat.m_type = REFLECTION →
      loopBody cfg world randU sqrtf s =
        (⟨(((s.tasks.pop).1.push
              (mergeFrameOf (normalized sqrtf ((s.tasks.top).ray).rd)
                (world ((s.tasks.top).ray)) ((s.tasks.top).depth))).1.push
              (reflectFrameOf cfg sqrtf (randU s.rng)
                (normalized sqrtf ((s.tasks.top).ray).rd)
                (world ((s.tasks.top).ray)) ((s.tasks.top).depth))).1,
          (s.results.push ((99 / 100 : ℚ) • cfg.background_color)).1,
          s.rng + 1⟩, true)) := by
  refine ⟨fun hm => ⟨?_, ?_⟩, fun hm => ?_⟩
  · simp only [loopBody]
    rw [h1, h3]
    rw [if_pos rfl]
    rw [if_neg (not_le.mpr h2)]
    rw [if_pos rfl]
    rw [hm]
    rw [if_pos (Or.inl rfl)]
    rw [if_pos rfl]
  · intro hp0 hcap
    have heq : loopBody cfg world randU sqrtf s =
        (⟨((((s.tasks.pop).1.push
              (mergeFrameOf (normalized sqrtf ((s.tasks.top).ray).rd)
                (world ((s.tasks.top).ray)) ((s.tasks.top).depth))).1.push
              (reflectFrameOf cfg sqrtf (randU s.rng)
                (normalized sqrtf ((s.tasks.top).ray).rd)
                (world ((s.tasks.top).ray)) ((s.tasks.top).depth))).1.push
              (refractFrameOf sqrtf (normalized sqrtf ((s.tasks.top).ray).rd)
                (world ((s.tasks.top).ray)) ((s.tasks.top).depth))).1,
          s.results, s.rng + 1⟩, true) := by
      simp only [loopBody]
      rw [h1, h3]
      rw [if_pos rfl]
      rw [if_neg (not_le.mpr h2)]
      rw [if_pos rfl]
      rw [hm]
      rw [if_pos (Or.inl rfl)]
      rw [if_pos rfl]
    rw [heq]
    obtain ⟨hq1, hq2⟩ := pop_ptr s.tasks hp0
    have hpA := push_ptr (s.tasks.pop).1
      (mergeFrameOf (normalized sqrtf ((s.tasks.top).ray).rd)
        (world ((s.tasks.top).ray)) ((s.tasks.top).depth)) (by omega)
    have hpB := push_ptr ((s.tasks.pop).1.push
      (mergeFrameOf (normalized sqrtf ((s.tasks.top).ray).rd)
        (world ((s.tasks.top).ray)) ((s.tasks.top).depth))).1
      (reflectFrameOf cfg sqrtf (randU s.rng)
        (normalized sqrtf ((s.tasks.top).ray).rd)
        (world ((s.tasks.top).ray)) ((s.tasks.top).depth))
      (by rw [hpA.1, hpA.2.1]; omega)
    have hpC := push_ptr (((s.tasks.pop).1.push
      (mergeFrameOf (normalized sqrtf ((s.tasks.top).ray).rd)
        (world ((s.tasks.top).ray)) ((s.tasks.top).depth))).1.push
      (reflectFrameOf cfg sqrtf (randU s.rng)
        (normalized sqrtf ((s.tasks.top).ray).rd)
        (world ((s.tasks.top).ray)) ((s.tasks.top).depth))).1
      (refractFrameOf sqrtf (normalized sqrtf ((s.tasks.top).ray).rd)
        (world ((s.tasks.top).ray)) ((s.tasks.top).depth))
      (by rw [hpB.1, hpB.2.1, hpA.1, hpA.2.1]; omega)
    exact hpC.2.2
  · simp only [loopBody]
    rw [h1, h3]
    rw [if_pos rfl]
    rw [if_neg (not_le.mpr h2)]
    rw [if_pos rfl]
    rw [hm]
    rw [if_pos (Or.inr rfl)]
    rw [if_neg (by norm_num [REFLECTION, REFLECTION_AND_REFRACTION])]

/-- C8 witness: a reflective-and-refractive hit record with `ior = 2`. -/
def recRR : HitRecord :=
  ⟨true, 1, (0, 0, 0), (0, 0, 1), true, ⟨REFLECTION_AND_REFRACTION, (0, 0, 0), 0, 0, 0, 0, 2⟩⟩

/-- C8 witness: a reflective-only hit record with `ior = 2`. -/
def recR : HitRecord :=
  ⟨true, 1, (0, 0, 0), (0, 0, 1), true, ⟨REFLECTION, (0, 0, 0), 0, 0, 0, 0, 2⟩⟩

/-- C8 witness world: every ray hits the reflective-and-refractive record. -/
def worldRR : Ray → HitRecord := fun _ => recRR

/-- C8 witness world: every ray hits the reflective-only record. -/
def worldR : Ray → HitRecord := fun _ => recR

/-- C8 witness state: a depth-0 PROCESS frame on a capacity-5 task stack. -/
def s8 : RTState :=
  ⟨⟨5, fun _ => ⟨TASK_PROCESS, 0, ⟨(0, 0, 0), (0, 0, -1)⟩, 1⟩, 0⟩,
   ⟨5, fun _ => ((0 : ℚ), (0 : ℚ), (0 : ℚ)), -1⟩, 0⟩

/-- C8 witness configuration. -/
def cfg8 : Config := ⟨(1, 1, 1), 10, 5, 0, (0, 0, 0), []⟩

/-- C8 witness: the push order at a concrete reflective-and-refractive hit
(with the refraction frame ending on top) and at a concrete reflective-only
hit (with the placeholder pushed onto the result stack). -/
theorem reflective_push_order_witness :
    (loopBody cfg8 worldRR rand0 sqrt0 s8 =
        (⟨((((s8.tasks.pop).1.push
              (mergeFrameOf (normalized sqrt0 ((s8.tasks.top).ray).rd)
                (worldRR ((s8.tasks.top).ray)) ((s8.tasks.top).depth))).1.push
              (reflectFrameOf cfg8 sqrt0 (rand0 s8.rng)
                (normalized sqrt0 ((s8.tasks.top).ray).rd)
                (worldRR ((s8.tasks.top).ray)) ((s8.tasks.top).depth))).1.push
              (refractFrameOf sqrt0 (normalized sqrt0 ((s8.tasks.top).ray).rd)
                (worldRR ((s8.tasks.top).ray)) ((s8.tasks.top).depth))).1,
          s8.results, s8.rng + 1⟩, true) ∧
      (loopBody cfg8 worldRR rand0 sqrt0 s8).1.tasks.top =
        refractFrameOf sqrt0 (normalized sqrt0 ((s8.tasks.top).ray).rd)
          (worldRR ((s8.tasks.top).ray)) ((s8.tasks.top).depth)) ∧
    loopBody cfg8 worldR rand0 sqrt0 s8 =
      (⟨(((s8.tasks.pop).1.push
            (mergeFrameOf (normalized sqrt0 ((s8.tasks.top).ray).rd)
              (worldR ((s8.tasks.top).ray)) ((s8.tasks.top).depth))).1.push
            (reflectFrameOf cfg8 sqrt0 (rand0 s8.rng)
              (normalized sqrt0 ((s8.tasks.top).ray).rd)
              (worldR ((s8.tasks.top).ray)) ((s8.tasks.top).depth))).1,
        (s8.results.push ((99 / 100 : ℚ) • cfg8.background_color)).1,
        s8.rng + 1⟩, true) :=
  ⟨⟨((reflective_push_order cfg8 worldRR rand0 sqrt0 s8 rfl
        (by norm_num [s8, cfg8, Stack.top]) rfl).1 rfl).1,
    ((reflective_push_order cfg8 worldRR rand0 sqrt0 s8 rfl
        (by norm_num [s8, cfg8, Stack.top]) rfl).1 rfl).2
      (by norm_num [s8]) (by norm_num [s8])⟩,
   (reflective_push_order cfg8 worldR rand0 sqrt0 s8 rfl
        (by norm_num [s8, cfg8, Stack.top]) rfl).2 rfl⟩

/-- C4 (amended): when the dispatch loop terminates, the pixel color is the
top entry of the result stack whenever the stack is nonempty (in particular
when it holds exactly one entry), and the configured background color when
it is empty. -/
theorem pixel_color_from_final_stack (cfg : Config) (world : Ray → HitRecord)
    (randU : ℕ → Vec3) (sqrtf : ℚ → ℚ) (fuel : ℕ) (ray : Ray) (c : Vec3)
    (s : RTState)
    (h : ray_color cfg world randU sqrtf fuel ray = some (c, s)) :
    c = (if s.results.empty then cfg.background_color else s.results.top) ∧
    (s.results.ptr = 0 → c = s.results.top) ∧
    (s.results.empty = true → c = cfg.background_color) := by
  unfold ray_color at h
  cases hr : runLoop cfg world randU sqrtf fuel (initState cfg ray) with
  | none => rw [hr] at h; simp at h
  | some s' =>
    rw [hr] at h
    simp only [Option.map_some', Option.some.injEq, Prod.mk.injEq] at h
    obtain ⟨hc, hs⟩ := h
    subst hs
    refine ⟨by rw [← hc]; rfl, ?_, ?_⟩
    · intro hp
      rw [← hc]
      unfold finalColor
      rw [if_neg (by simp [Stack.empty, hp])]
    · intro he
      rw [← hc]
      unfold finalColor
      rw [if_pos he]

/-- C4 witness configuration: stack capacity 0, so the loop never runs and
the result stack stays empty. -/
def cfgE : Config := ⟨(1, 1, 1), 5, 0, 0, (0, 0, 0), []⟩

/-- C4 witness: the final-extraction rule at a concrete terminated trace
whose result stack is empty, yielding the background color. -/
theorem pixel_color_from_final_stack_witness :
    (((1 : ℚ), (1 : ℚ), (1 : ℚ)) : Vec3) =
      (if (initState cfgE rayW).results.empty then cfgE.background_color
       else (initState cfgE rayW).results.top) ∧
    ((initState cfgE rayW).results.ptr = 0 →
      (((1 : ℚ), (1 : ℚ), (1 : ℚ)) : Vec3) = (initState cfgE rayW).results.top) ∧
    ((initState cfgE rayW).results.empty = true →
      (((1 : ℚ), (1 : ℚ), (1 : ℚ)) : Vec3) = cfgE.background_color) :=
  pixel_color_from_final_stack cfgE world0 rand0 sqrt0 1 rayW
    ((1 : ℚ), (1 : ℚ), (1 : ℚ)) (initState cfgE rayW) rfl

/-- C4 counterexample scene: a reflective-only material with `ior = 2`. -/
def matC4 : Material := ⟨REFLECTION, (0, 0, 0), 0, 0, 0, 0, 2⟩

/-- C4 counterexample scene: first reflective hit, at the origin. -/
def recA4 : HitRecord := ⟨true, 1, (0, 0, 0), (0, 0, 1), true, matC4⟩

/-- C4 counterexample scene: second reflective hit, away from the origin. -/
def recB4 : HitRecord := ⟨true, 1, (5, 5, 5), (0, 0, 1), true, matC4⟩

/-- C4 counterexample world: the primary ray (origin 0) hits the first
reflective record, the spawned reflection ray (origin `(0,0,eps)`) hits the
second, and every further ray misses. -/
def world4 : Ray → HitRecord := fun r =>
  if r.ro = (((0 : ℚ), (0 : ℚ), (0 : ℚ)) : Vec3) then recA4
  else if r.ro = (((0 : ℚ), (0 : ℚ), (1 / 100000 : ℚ)) : Vec3) then recB4
  else noHit

/-- C4 counterexample configuration: white background, no fuzz. -/
def cfg4 : Config := ⟨(1, 1, 1), 10, 50, 0, (0, 0, 0), []⟩

/-- C4 counterexample primary ray. -/
def ray4 : Ray := ⟨(0, 0, 0), (0, 0, -1)⟩

set_option maxHeartbeats 4000000 in
/-- C4 (counterexample): two nested reflective-only hits each push a
`0.99 * background` placeholder, then the next reflection ray misses and the
loop breaks: the final result stack holds TWO entries (`ptr = 1`), and the
returned pixel color is the top entry `(99/100, 99/100, 99/100)`, not the
background color `(1,1,1)` that the claim prescribes for every state other
than exactly one entry. -/
theorem pixel_color_two_entries_counterexample :
    (ray_color cfg4 world4 rand0 sqrt0 10 ray4).map
        (fun p => (p.1, p.2.results.ptr)) =
      some ((((99 / 100 : ℚ), (99 / 100 : ℚ), (99 / 100 : ℚ)) : Vec3), 1) ∧
    (((99 / 100 : ℚ), (99 / 100 : ℚ), (99 / 100 : ℚ)) : Vec3) ≠
      cfg4.background_color := by
  constructor
  · norm_num [ray_color, runLoop, loopBody, initState, finalColor, Stack.push,
      Stack.pop, Stack.top, Stack.empty, mergeFrameOf, reflectFrameOf,
      refractFrameOf, reflectDirOf, reflectOrigOf, refractOrigOf, effRefIdx,
      cosTheta, reflectance, reflect, refract, normalized, dot3, eps0,
      zeroRay, zeroFrame, noHit, world4, cfg4, ray4, recA4, recB4, matC4,
      rand0, sqrt0, REFLECTION, REFLECTION_AND_REFRACTION, TASK_PROCESS,
      TASK_MERGE, Prod.ext_iff, Prod.smul_def, smul_eq_mul]
  · norm_num [cfg4, Prod.ext_iff]
